import Mathlib

/-!
Shallow embedding of the WP-RAG retrieval-fusion and conversational-context
engine (src/index_mongo.py, src/query_llm.py, src/vector_search.py).

Similarity scores are modelled as integers; document/metadata dictionaries are
modelled as structures with optional fields (a `none` field is an absent key).
The external collaborators (vector index, MongoDB, the LLM) are passed to the
session controller as oracles returning `Except`.
-/

/-- A vector search result as returned by `VectorSearch.search_docs`:
`content` is the page content, `document_id` the optional
`metadata['document_id']` entry, `similarity_score` the score. -/
structure Match where
  content : String
  document_id : Option String
  similarity_score : Int
deriving DecidableEq, Repr

/-- A document record as stored in MongoDB / loaded from a JSON file.
Optional fields model the presence or absence of the corresponding keys. -/
structure Doc where
  document_id : Option String
  summary : Option String
  key_words : Option (List String)
deriving DecidableEq, Repr

/-- One fused result of `IndexDB.get_matching_documents`:
`{'document': doc, 'vector_content': ..., 'similarity_score': ...}`. -/
structure FusedItem where
  document : Doc
  vector_content : String
  similarity_score : Int
deriving DecidableEq, Repr

/-- One conversation turn appended by `QueryLLM.chat`: timestamp, query,
response, and the `context_used` counts. -/
structure Turn where
  timestamp : Nat
  query : String
  response : String
  vector_results_count : Nat
  mongo_results_count : Nat
deriving DecidableEq, Repr

/-- The mutable state of a `QueryLLM` instance: the conversation history
and the configured history window. -/
structure ChatState where
  conversation_history : List Turn
  max_history : Nat
deriving DecidableEq, Repr

/-- The structured result returned by a successful `QueryLLM.chat` call. -/
structure ChatResult where
  query : String
  response : String
  vector_results : List Match
  mongo_results : List FusedItem
deriving DecidableEq, Repr

/-- The dictionary returned by `QueryLLM.get_conversation_summary`. -/
structure Summary where
  total_turns : Nat
  conversation_start : Option Nat
  conversation_end : Option Nat
  history : List Turn
deriving DecidableEq, Repr

/-- A document as stored in the vector store by `VectorSearch.add_document`:
page content plus the metadata fields. -/
structure VectorDoc where
  page_content : String
  document_id : String
  keywords : List String
deriving DecidableEq, Repr

/-! ### The `doc_scores` dictionary of `get_matching_documents`

A Python dict keyed by strings, insertion-ordered, assignment overwrites in
place.  Only lookup is observable downstream. -/

/-- Python dict assignment `d[k] = v`: overwrite in place if the key exists,
otherwise append the new entry. -/
def dictInsert (d : List (String × String × Int)) (k : String) (v : String × Int) :
    List (String × String × Int) :=
  if d.any (fun p => p.1 == k) then
    d.map (fun p => if p.1 == k then (k, v) else p)
  else
    d ++ [(k, v)]

/-- Python dict lookup `d[k]` / `k in d`: the value stored at the key. -/
def dictLookup (d : List (String × String × Int)) (k : String) : Option (String × Int) :=
  (d.find? (fun p => p.1 == k)).map (fun p => p.2)

/-- The `doc_scores` dict built by `get_matching_documents` lines 91-101:
iterate over the vector search results and, when the metadata has a
`document_id`, store `(content, score)` under it (overwriting duplicates). -/
def buildDocScores (vector_search_results : List Match) : List (String × String × Int) :=
  vector_search_results.foldl
    (fun acc m =>
      match m.document_id with
      | none => acc
      | some did => dictInsert acc did (m.content, m.similarity_score))
    []

/-- Specification-level reading of the dict: the `(snippet, score)` of the
last occurrence of an identifier among the matches. -/
def lastLookup (ms : List Match) (did : String) : Option (String × Int) :=
  (ms.reverse.find? (fun m => m.document_id == some did)).map
    (fun m => (m.content, m.similarity_score))

/-! ### The combine loop and sort of `get_matching_documents` -/

/-- The loop of `get_matching_documents` lines 110-118 over the fetched
documents: `doc['document_id']` raises a `KeyError` when the field is absent
(propagated by the `except` clause); a document whose identifier is not a key
of `doc_scores` is skipped; otherwise a fused result is appended. -/
def combineResults (doc_scores : List (String × String × Int)) :
    List Doc → Except String (List FusedItem)
  | [] => .ok []
  | doc :: rest =>
    match doc.document_id with
    | none => .error "KeyError: document_id"
    | some did =>
      match dictLookup doc_scores did with
      | some cs =>
        match combineResults doc_scores rest with
        | .ok r => .ok (⟨doc, cs.1, cs.2⟩ :: r)
        | .error e => .error e
      | none => combineResults doc_scores rest

/-- The sort key of `results.sort(key=lambda x: x['similarity_score'])`. -/
def scoreLE (a b : FusedItem) : Prop :=
  a.similarity_score ≤ b.similarity_score

instance : DecidableRel scoreLE := fun _ _ => Int.decLe _ _

instance : IsTotal FusedItem scoreLE := ⟨fun _ _ => Int.le_total _ _⟩

instance : IsTrans FusedItem scoreLE := ⟨fun _ _ _ => Int.le_trans⟩

/-- `IndexDB.get_matching_documents`, with the MongoDB fetch's output `docs`
passed in (the fetch itself is an external collaborator): build `doc_scores`
from the vector results, combine with the fetched documents, and sort the
output ascending by similarity score with Python's stable sort. -/
def get_matching_documents (vector_search_results : List Match) (docs : List Doc) :
    Except String (List FusedItem) :=
  let doc_scores := buildDocScores vector_search_results
  match combineResults doc_scores docs with
  | .ok results => .ok (List.insertionSort scoreLE results)
  | .error e => .error ("Failed to retrieve documents: " ++ e)

/-! ### Conversation history rendering (`QueryLLM._format_conversation_history`) -/

/-- The Python slice `lst[-n:]` for a natural `n`: the whole list when
`n = 0` (since `-0 == 0`), otherwise the last `n` elements. -/
def pySliceLast {α : Type} (l : List α) (n : Nat) : List α :=
  if n = 0 then l else l.drop (l.length - n)

/-- `QueryLLM._format_conversation_history`: the last `max_history` turns,
each rendered as a Human line and an Assistant line, joined by newlines. -/
def formatConversationHistory (conversation_history : List Turn) (max_history : Nat) :
    String :=
  String.intercalate "\n"
    ((pySliceLast conversation_history max_history).flatMap
      (fun turn => ["Human: " ++ turn.query, "Assistant: " ++ turn.response]))

/-- Rendering of a window of turns as described by the specification: two
lines per turn, newline-joined. -/
def renderWindow (turns : List Turn) : String :=
  String.intercalate "\n"
    (turns.flatMap (fun turn => ["Human: " ++ turn.query, "Assistant: " ++ turn.response]))

/-- Modelled from the spec (claim wording): rendering returns exactly the most
recent `min k n` turns, chronological, two lines per turn. -/
def renderClaim (history : List Turn) (n : Nat) : String :=
  renderWindow (history.drop (history.length - min history.length n))

/-! ### Prompt assembly (`QueryLLM._prepare_context` and the template) -/

/-- One paragraph of `_prepare_context`: the f-string of lines 72-82, taking
the relevance score and content from the vector result and the summary,
keywords and identifier from the fused mongo result's document (missing
fields default to empty via `.get`). -/
def contextParagraph (v_result : Match) (m_result : FusedItem) : String :=
  "\n                Relevance Score: " ++ toString v_result.similarity_score ++
  "\n                \n                Vector Search Content:\n                " ++
  v_result.content ++
  "\n                \n                Full Document:\n                Summary: " ++
  (m_result.document.summary.getD "") ++
  "\n                Keywords: " ++
  String.intercalate ", " (m_result.document.key_words.getD []) ++
  "\n                Document ID: " ++
  (m_result.document.document_id.getD "") ++
  "\n                "

/-- `QueryLLM._prepare_context`: one paragraph per `zip(vector_results,
mongo_results)` pair, joined by blank lines. -/
def prepare_context (vector_results : List Match) (mongo_results : List FusedItem) :
    String :=
  String.intercalate "\n\n"
    ((vector_results.zip mongo_results).map (fun p => contextParagraph p.1 p.2))

/-- Modelled from the spec (claim wording): one paragraph per fused context
item, each listing that item's own score and snippet together with its own
document's summary, keywords and identifier. -/
def prepareContextClaim (mongo_results : List FusedItem) : String :=
  String.intercalate "\n\n"
    (mongo_results.map (fun m =>
      "\n                Relevance Score: " ++ toString m.similarity_score ++
      "\n                \n                Vector Search Content:\n                " ++
      m.vector_content ++
      "\n                \n                Full Document:\n                Summary: " ++
      (m.document.summary.getD "") ++
      "\n                Keywords: " ++
      String.intercalate ", " (m.document.key_words.getD []) ++
      "\n                Document ID: " ++
      (m.document.document_id.getD "") ++
      "\n                "))

/-- The fixed `PromptTemplate` of `QueryLLM.__init__` with its three
substitution points filled in. -/
def prompt_template (context history question : String) : String :=
  "You are a helpful assistant engaging in a conversation. Use the following context and conversation history to provide a natural, contextual response.\n            \n            Context: " ++
  context ++
  "\n            \n            Conversation History:\n            " ++
  history ++
  "\n            \n            Current Question: " ++
  question ++
  "\n            \n            Provide a detailed, conversational response that maintains context from the previous discussion:"

/-! ### The chat session controller (`QueryLLM.chat` and friends)

The three external collaborators — the vector index (`search_docs`), the
MongoDB fetch inside `get_matching_documents`, and the LLM (`llm.invoke`) —
are oracles returning `Except`; an `.error` is a raised exception.  The
timestamp of `datetime.now()` is passed in as `now`. -/

/-- `QueryLLM.chat`: search, fetch, fuse, prepare context, render history,
format the prompt, invoke the LLM, append the turn, return the structured
result.  Any raised exception is re-raised as
`Failed to process chat: ...` and leaves the state untouched (the append is
the last step). -/
def chat (st : ChatState) (query : String) (num_results : Nat)
    (search_docs : String → Nat → Except String (List Match))
    (fetch_docs : List String → Except String (List Doc))
    (llm_invoke : String → Except String String)
    (now : Nat) : Except String ChatResult × ChatState :=
  match search_docs query num_results with
  | .error e => (.error ("Failed to process chat: " ++ e), st)
  | .ok vector_results =>
    match fetch_docs ((buildDocScores vector_results).map (fun p => p.1)) with
    | .error e =>
      (.error ("Failed to process chat: Failed to retrieve documents: " ++ e), st)
    | .ok docs =>
      match get_matching_documents vector_results docs with
      | .error e => (.error ("Failed to process chat: " ++ e), st)
      | .ok mongo_results =>
        let context := prepare_context vector_results mongo_results
        let history := formatConversationHistory st.conversation_history st.max_history
        let prompt := prompt_template context history query
        match llm_invoke prompt with
        | .error e => (.error ("Failed to process chat: " ++ e), st)
        | .ok response =>
          let turn : Turn :=
            ⟨now, query, response, vector_results.length, mongo_results.length⟩
          (.ok ⟨query, response, vector_results, mongo_results⟩,
           { st with conversation_history := st.conversation_history ++ [turn] })

/-- `QueryLLM.reset_conversation`: clear the history. -/
def reset_conversation (st : ChatState) : ChatState :=
  { st with conversation_history := [] }

/-- `QueryLLM.get_conversation_summary`. -/
def get_conversation_summary (st : ChatState) : Summary :=
  { total_turns := st.conversation_history.length,
    conversation_start := st.conversation_history.head?.map (fun t => t.timestamp),
    conversation_end := st.conversation_history.getLast?.map (fun t => t.timestamp),
    history := st.conversation_history }

/-! ### The interactive loop body (`QueryLLM.start_interactive_chat`) -/

/-- The whitespace characters stripped by Python's `str.strip()` (ASCII). -/
def isPySpace (c : Char) : Bool :=
  c == ' ' || c == '\t' || c == '\n' || c == '\r' ||
  c == Char.ofNat 11 || c == Char.ofNat 12

/-- Python `str.strip()`: drop leading and trailing whitespace. -/
def pyStrip (s : String) : String :=
  String.mk (((s.toList.dropWhile isPySpace).reverse.dropWhile isPySpace).reverse)

/-- Python `str.lower()` (ASCII): lowercase every character. -/
def pyLower (s : String) : String :=
  String.mk (s.data.map Char.toLower)

/-- What one iteration of the interactive loop did. -/
inductive StepAction where
  | exitSession : StepAction
  | resetDone : StepAction
  | summaryShown : Summary → StepAction
  | skipped : StepAction
  | answered : ChatResult → StepAction
  | failed : String → StepAction
deriving Repr

/-- One iteration of the `while True` loop of `start_interactive_chat`:
strip the raw input, recognize the `exit` / `reset` / `summary` control
tokens case-insensitively, skip empty input, otherwise run `chat` (a raised
exception is caught, printed, and the loop continues). -/
def interactiveStep (st : ChatState) (rawInput : String) (num_results : Nat)
    (search_docs : String → Nat → Except String (List Match))
    (fetch_docs : List String → Except String (List Doc))
    (llm_invoke : String → Except String String)
    (now : Nat) : ChatState × StepAction :=
  let query := pyStrip rawInput
  if pyLower query = "exit" then (st, .exitSession)
  else if pyLower query = "reset" then (reset_conversation st, .resetDone)
  else if pyLower query = "summary" then (st, .summaryShown (get_conversation_summary st))
  else if query = "" then (st, .skipped)
  else
    match chat st query num_results search_docs fetch_docs llm_invoke now with
    | (.ok r, st2) => (st2, .answered r)
    | (.error e, st2) => (st2, .failed e)

/-! ### Ingestion (`IndexDB.store_document`, `VectorSearch.add_document`)

The loaded JSON document is passed in directly; the MongoDB collection and
the vector store are modelled as lists of records, inserts append. -/

/-- `IndexDB.store_document`: reject (return `False`, inside the `except`)
a document without a `document_id`; return `False` without inserting when a
record with the same identifier already exists; otherwise insert and return
`True`. -/
def store_document (collection : List Doc) (document : Doc) : Bool × List Doc :=
  match document.document_id with
  | none => (false, collection)
  | some did =>
    if collection.any (fun d => d.document_id == some did) then
      (false, collection)
    else
      (true, collection ++ [document])

/-- The ingestion text of `VectorSearch.add_document` lines 125-128. -/
def vectorText (json_data : Doc) : String :=
  "\n            Summary: " ++ (json_data.summary.getD "") ++
  "\n            Keywords: " ++
  String.intercalate ", " (json_data.key_words.getD []) ++
  "\n            "

/-- `VectorSearch.add_document`: reject a document without a `document_id`
(the raised `ValueError` is caught and `False` returned); return `False`
when a vector-store entry with the same identifier exists; otherwise add the
rendered document and return `True`. -/
def add_document (vector_store : List VectorDoc) (json_data : Doc) :
    Bool × List VectorDoc :=
  match json_data.document_id with
  | none => (false, vector_store)
  | some did =>
    if vector_store.any (fun d => d.document_id == did) then
      (false, vector_store)
    else
      (true, vector_store ++
        [⟨vectorText json_data, did, json_data.key_words.getD []⟩])

/-! ### Helper lemmas -/

theorem find?_mapReplace_self (k : String) (v : String × Int)
    (d : List (String × String × Int)) :
    (d.map (fun p => if p.1 == k then (k, v) else p)).find? (fun p => p.1 == k) =
      (d.find? (fun p => p.1 == k)).map (fun _ => (k, v)) := by
  induction d with
  | nil => rfl
  | cons p t ih =>
    simp only [List.map_cons, List.find?_cons]
    by_cases hp : p.1 = k
    · have hb : (p.1 == k) = true := beq_iff_eq.mpr hp
      simp [hb, -List.find?_map]
    · have hb : (p.1 == k) = false := beq_eq_false_iff_ne.mpr hp
      simp [hb, -List.find?_map]
      simpa [-List.find?_map] using ih

theorem find?_mapReplace_ne (k : String) (v : String × Int) (q : String) (hq : q ≠ k)
    (d : List (String × String × Int)) :
    (d.map (fun p => if p.1 == k then (k, v) else p)).find? (fun p => p.1 == q) =
      d.find? (fun p => p.1 == q) := by
  induction d with
  | nil => rfl
  | cons p t ih =>
    simp only [List.map_cons, List.find?_cons]
    have hkq : (k == q) = false := beq_eq_false_iff_ne.mpr (Ne.symm hq)
    by_cases hp : p.1 = k
    · have hb : (p.1 == k) = true := beq_iff_eq.mpr hp
      have hbq : (p.1 == q) = false := by
        rw [hp]; exact hkq
      simp [hb, hbq, hkq, -List.find?_map]
      simpa [-List.find?_map] using ih
    · have hb : (p.1 == k) = false := beq_eq_false_iff_ne.mpr hp
      by_cases hpq : p.1 = q
      · have hbq : (p.1 == q) = true := beq_iff_eq.mpr hpq
        simp [hb, hbq, -List.find?_map]
      · have hbq : (p.1 == q) = false := beq_eq_false_iff_ne.mpr hpq
        simp [hb, hbq, -List.find?_map]
        simpa [-List.find?_map] using ih

/-- Dict lookup after dict assignment: the assigned key now maps to the new
value, every other key is untouched. -/
theorem dictLookup_dictInsert (d : List (String × String × Int)) (k : String)
    (v : String × Int) (q : String) :
    dictLookup (dictInsert d k v) q = if q = k then some v else dictLookup d q := by
  unfold dictInsert dictLookup
  by_cases hany : d.any (fun p => p.1 == k) = true
  · rw [if_pos hany]
    by_cases hq : q = k
    · subst hq
      rw [if_pos rfl, find?_mapReplace_self]
      obtain ⟨x, hx, hpx⟩ := List.any_eq_true.mp hany
      cases hfind : d.find? (fun p => p.1 == q) with
      | none =>
        rw [List.find?_eq_none] at hfind
        exact absurd hpx (hfind x hx)
      | some y => simp
    · rw [if_neg hq, find?_mapReplace_ne k v q hq]
  · rw [if_neg hany, List.find?_append]
    by_cases hq : q = k
    · subst hq
      have hnone : d.find? (fun p => p.1 == q) = none := by
        rw [List.find?_eq_none]
        intro x hx hpx
        exact hany (List.any_eq_true.mpr ⟨x, hx, hpx⟩)
      rw [if_pos rfl, hnone]
      simp [List.find?_cons]
    · rw [if_neg hq]
      have hkq : (k == q) = false := beq_eq_false_iff_ne.mpr (Ne.symm hq)
      have hsingle : ([(k, v)].find? (fun p => p.1 == q)) = none := by
        simp [List.find?_cons, hkq]
      rw [hsingle]
      simp

/-- The dict built from the matches looks up to the last occurrence of an
identifier among the matches (last-write-wins). -/
theorem dictLookup_buildDocScores (ms : List Match) (q : String) :
    dictLookup (buildDocScores ms) q = lastLookup ms q := by
  induction ms using List.reverseRecOn with
  | nil => rfl
  | append_singleton ms m ih =>
    unfold buildDocScores at ih ⊢
    rw [List.foldl_append, List.foldl_cons, List.foldl_nil]
    unfold lastLookup
    rw [List.reverse_append, List.reverse_singleton, List.singleton_append,
      List.find?_cons]
    cases hm : m.document_id with
    | none =>
      simp only [hm]
      have hpred : ((none : Option String) == some q) = false := rfl
      rw [hpred]
      exact ih.trans rfl
    | some did =>
      rw [dictLookup_dictInsert]
      by_cases hq : q = did
      · subst hq
        simp [hm]
      · have hpred : ((some did : Option String) == some q) = false := by
          simp [Ne.symm hq]
        simp only [hm, hpred, if_neg hq]
        exact ih.trans rfl

/-- When every fetched document carries an identifier, the combine loop
succeeds and returns the join of the documents with the score dict, in
document order. -/
theorem combineResults_ok (ds : List (String × String × Int)) (docs : List Doc)
    (hall : ∀ d ∈ docs, d.document_id.isSome = true) :
    combineResults ds docs =
      .ok (docs.filterMap (fun d =>
        (d.document_id.bind (dictLookup ds)).map
          (fun cs => (⟨d, cs.1, cs.2⟩ : FusedItem)))) := by
  induction docs with
  | nil => rfl
  | cons doc rest ih =>
    have hdoc := hall doc (List.mem_cons_self doc rest)
    have hrest : ∀ d ∈ rest, d.document_id.isSome = true :=
      fun d hd => hall d (List.mem_cons_of_mem doc hd)
    cases hdid : doc.document_id with
    | none => rw [hdid] at hdoc; simp at hdoc
    | some did =>
      unfold combineResults
      rw [hdid]
      cases hl : dictLookup ds did with
      | some cs =>
        rw [ih hrest]
        simp [List.filterMap_cons, hdid, hl]
      | none =>
        rw [ih hrest]
        simp [List.filterMap_cons, hdid, hl]

/-- When some fetched document lacks an identifier, the combine loop raises
the `KeyError`. -/
theorem combineResults_error (ds : List (String × String × Int)) (docs : List Doc)
    (hbad : ∃ d ∈ docs, d.document_id = none) :
    combineResults ds docs = .error "KeyError: document_id" := by
  induction docs with
  | nil => simp at hbad
  | cons doc rest ih =>
    obtain ⟨d, hd, hnone⟩ := hbad
    cases hdid : doc.document_id with
    | none => simp [combineResults, hdid]
    | some did =>
      have hrest : ∃ d ∈ rest, d.document_id = none := by
        rcases List.mem_cons.mp hd with rfl | hmem
        · rw [hdid] at hnone; exact absurd hnone (by simp)
        · exact ⟨d, hmem, hnone⟩
      cases hl : dictLookup ds did with
      | some cs => simp [combineResults, hdid, hl, ih hrest]
      | none => simp [combineResults, hdid, hl, ih hrest]

/-- Inserting an item with key score `s` into a list leaves, among the score
`s` items, the inserted one first and the others in place. -/
theorem filter_orderedInsert_of_eq (s : Int) (a : FusedItem) (t : List FusedItem)
    (ha : a.similarity_score = s) :
    (List.orderedInsert scoreLE a t).filter (fun x => x.similarity_score == s) =
      a :: t.filter (fun x => x.similarity_score == s) := by
  induction t with
  | nil => simp [List.orderedInsert, List.filter_cons, ha]
  | cons b t ih =>
    by_cases hr : scoreLE a b
    · rw [List.orderedInsert, if_pos hr]
      simp [List.filter_cons, ha]
    · have hb : (b.similarity_score == s) = false := by
        refine beq_eq_false_iff_ne.mpr (fun hbs => hr ?_)
        unfold scoreLE
        rw [ha, hbs]
      rw [List.orderedInsert, if_neg hr]
      simp [List.filter_cons, hb, ih]

/-- Inserting an item whose score is not `s` does not change the score `s`
items. -/
theorem filter_orderedInsert_of_ne (s : Int) (a : FusedItem) (t : List FusedItem)
    (ha : a.similarity_score ≠ s) :
    (List.orderedInsert scoreLE a t).filter (fun x => x.similarity_score == s) =
      t.filter (fun x => x.similarity_score == s) := by
  have hba : (a.similarity_score == s) = false := beq_eq_false_iff_ne.mpr ha
  induction t with
  | nil => simp [List.orderedInsert, List.filter_cons, hba]
  | cons b t ih =>
    by_cases hr : scoreLE a b
    · rw [List.orderedInsert, if_pos hr]
      simp [List.filter_cons, hba]
    · rw [List.orderedInsert, if_neg hr]
      simp [List.filter_cons, ih]

/-- Stability of the sort: for every score, the items carrying that score
appear in the sorted output in exactly the order they had before sorting. -/
theorem insertionSort_filter_score (s : Int) (l : List FusedItem) :
    (List.insertionSort scoreLE l).filter (fun x => x.similarity_score == s) =
      l.filter (fun x => x.similarity_score == s) := by
  induction l with
  | nil => rfl
  | cons a l ih =>
    rw [List.insertionSort]
    by_cases ha : a.similarity_score = s
    · rw [filter_orderedInsert_of_eq s a _ ha, ih]
      simp [List.filter_cons, beq_iff_eq.mpr ha]
    · rw [filter_orderedInsert_of_ne s a _ ha, ih]
      simp [List.filter_cons, beq_eq_false_iff_ne.mpr ha]

/-- The identifiers of the joined items form a sublist of the identifiers of
the fetched documents. -/
theorem join_ids_sublist (ds : List (String × String × Int)) (docs : List Doc) :
    ((docs.filterMap (fun d =>
        (d.document_id.bind (dictLookup ds)).map
          (fun cs => (⟨d, cs.1, cs.2⟩ : FusedItem)))).filterMap
      (fun i => i.document.document_id)).Sublist
      (docs.filterMap (fun d => d.document_id)) := by
  induction docs with
  | nil => simp
  | cons doc rest ih =>
    cases hdid : doc.document_id with
    | none =>
      simp only [List.filterMap_cons, hdid, Option.none_bind, Option.map_none]
      exact ih
    | some did =>
      cases hl : dictLookup ds did with
      | none =>
        simp only [List.filterMap_cons, hdid, Option.some_bind, hl, Option.map_none]
        exact List.Sublist.cons did ih
      | some cs =>
        simp only [List.filterMap_cons, hdid, Option.some_bind, hl, Option.map_some']
        exact List.Sublist.cons₂ did ih

/-- Rendering an empty history is the empty string, for every window. -/
theorem formatConversationHistory_nil (n : Nat) :
    formatConversationHistory [] n = "" := by
  unfold formatConversationHistory pySliceLast
  cases n with
  | zero => rfl
  | succ m =>
    have h1 : (if m + 1 = 0 then ([] : List Turn)
        else List.drop (([] : List Turn).length - (m + 1)) []) = [] := by
      simp
    rw [h1]
    rfl

/-! ### Claims -/

/-- C1 counterexample: with duplicate identifiers among the fetched records,
`get_matching_documents` emits one fused item per record occurrence, so the
identifier appears twice in the output — refuting that each identifier
appears at most once regardless of duplicates in R. -/
theorem c1_duplicate_records_counterexample :
    (get_matching_documents [⟨"c", some "a", 5⟩]
        [⟨some "a", some "s1", none⟩, ⟨some "a", some "s2", none⟩]).map
      (fun out => out.map (fun i => i.document.document_id)) =
      Except.ok [some "a", some "a"] ∧
    ¬ ([some "a", some "a"] : List (Option String)).Nodup := by
  exact ⟨rfl, by decide⟩

/-- C1 (amended): join correctness for records with present, pairwise
distinct identifiers: the fusion succeeds and returns, up to the score
reordering, exactly one item per record of R whose identifier appears among
the identifiers of M (unmatched records are silently dropped), each output
identifier occurring only once, with the snippet and score taken from the
last occurrence of the identifier in M (last-write-wins). -/
theorem c1_join_correctness (ms : List Match) (docs : List Doc)
    (hall : ∀ d ∈ docs, d.document_id.isSome = true)
    (hnd : (docs.filterMap (fun d => d.document_id)).Nodup) :
    ∃ out, get_matching_documents ms docs = .ok out ∧
      out.Perm (docs.filterMap (fun d =>
        (d.document_id.bind (lastLookup ms)).map
          (fun cs => (⟨d, cs.1, cs.2⟩ : FusedItem)))) ∧
      (out.filterMap (fun i => i.document.document_id)).Nodup ∧
      (∀ did : String, (lastLookup ms did).isSome = true ↔
        ∃ m ∈ ms, m.document_id = some did) := by
  have hdict : dictLookup (buildDocScores ms) = lastLookup ms :=
    funext (dictLookup_buildDocScores ms)
  have hc := combineResults_ok (buildDocScores ms) docs hall
  have hg : get_matching_documents ms docs =
      .ok (List.insertionSort scoreLE (docs.filterMap (fun d =>
        (d.document_id.bind (dictLookup (buildDocScores ms))).map
          (fun cs => (⟨d, cs.1, cs.2⟩ : FusedItem))))) := by
    simp only [get_matching_documents]
    rw [hc]
  refine ⟨_, hg, ?_, ?_, ?_⟩
  · rw [hdict]
    exact List.perm_insertionSort scoreLE _
  · have hperm := (List.perm_insertionSort scoreLE
      (docs.filterMap (fun d =>
        (d.document_id.bind (dictLookup (buildDocScores ms))).map
          (fun cs => (⟨d, cs.1, cs.2⟩ : FusedItem))))).filterMap
      (fun i => i.document.document_id)
    have hsub := join_ids_sublist (buildDocScores ms) docs
    exact hperm.nodup_iff.mpr (List.Nodup.sublist hsub hnd)
  · intro did
    simp [lastLookup, Option.isSome_map', List.find?_isSome, List.mem_reverse]

/-- C1 witness: a concrete run of the amended join-correctness theorem. -/
theorem c1_join_correctness_witness :
    (∀ d ∈ ([⟨some "a", none, none⟩, ⟨some "c", none, none⟩] : List Doc),
      d.document_id.isSome = true) ∧
    (([⟨some "a", none, none⟩, ⟨some "c", none, none⟩] : List Doc).filterMap
      (fun d => d.document_id)).Nodup ∧
    (∃ out, get_matching_documents
        [⟨"c1", some "a", 3⟩, ⟨"c2", some "b", 1⟩, ⟨"c3", some "a", 2⟩]
        [⟨some "a", none, none⟩, ⟨some "c", none, none⟩] = .ok out ∧
      out.Perm (([⟨some "a", none, none⟩, ⟨some "c", none, none⟩] : List Doc).filterMap
        (fun d =>
          (d.document_id.bind (lastLookup
            [⟨"c1", some "a", 3⟩, ⟨"c2", some "b", 1⟩, ⟨"c3", some "a", 2⟩])).map
            (fun cs => (⟨d, cs.1, cs.2⟩ : FusedItem)))) ∧
      (out.filterMap (fun i => i.document.document_id)).Nodup ∧
      (∀ did : String,
        (lastLookup [⟨"c1", some "a", 3⟩, ⟨"c2", some "b", 1⟩, ⟨"c3", some "a", 2⟩]
          did).isSome = true ↔
        ∃ m ∈ ([⟨"c1", some "a", 3⟩, ⟨"c2", some "b", 1⟩, ⟨"c3", some "a", 2⟩] :
          List Match), m.document_id = some did)) :=
  ⟨by decide, by decide,
    c1_join_correctness _ _ (by decide) (by decide)⟩

/-- C2 counterexample: with two equal-score matches listed as b before a in M
but fetched as a before b in R, the fused output keeps the R order (a, b),
not the M order demanded by the claim. -/
theorem c2_tie_order_counterexample :
    (get_matching_documents [⟨"cb", some "b", 1⟩, ⟨"ca", some "a", 1⟩]
        [⟨some "a", none, none⟩, ⟨some "b", none, none⟩]).map
      (fun out => out.map (fun i => i.document.document_id)) =
      Except.ok [some "a", some "b"] ∧
    (get_matching_documents [⟨"cb", some "b", 1⟩, ⟨"ca", some "a", 1⟩]
        [⟨some "a", none, none⟩, ⟨some "b", none, none⟩]).map
      (fun out => out.map (fun i => i.similarity_score)) =
      Except.ok [1, 1] ∧
    ([⟨"cb", some "b", 1⟩, ⟨"ca", some "a", 1⟩] : List Match).filterMap
      (fun m => m.document_id) = ["b", "a"] ∧
    ([some "a", some "b"] : List (Option String)) ≠ [some "b", some "a"] := by
  exact ⟨rfl, rfl, rfl, by decide⟩

/-- C2 (amended): the fused output is sorted non-decreasing in score, and for
every score the equal-score items appear in the order of the pre-sort combine
list, which follows the order of the fetched records R (not the order of the
matches M). -/
theorem c2_sort_invariant (ms : List Match) (docs : List Doc) (out : List FusedItem)
    (h : get_matching_documents ms docs = .ok out) :
    List.Sorted scoreLE out ∧
    ∃ pre, combineResults (buildDocScores ms) docs = .ok pre ∧
      out = List.insertionSort scoreLE pre ∧
      ∀ s : Int, out.filter (fun i => i.similarity_score == s) =
        pre.filter (fun i => i.similarity_score == s) := by
  simp only [get_matching_documents] at h
  cases hc : combineResults (buildDocScores ms) docs with
  | error e => rw [hc] at h; simp at h
  | ok pre =>
    rw [hc] at h
    simp only [Except.ok.injEq] at h
    subst h
    exact ⟨List.sorted_insertionSort scoreLE pre,
      pre, rfl, rfl, fun s => insertionSort_filter_score s pre⟩

/-- C2 witness: a concrete run of the amended sort-invariant theorem. -/
theorem c2_sort_invariant_witness :
    get_matching_documents [⟨"c1", some "a", 2⟩, ⟨"c2", some "b", 1⟩]
        [⟨some "a", none, none⟩, ⟨some "b", none, none⟩] =
      .ok [⟨⟨some "b", none, none⟩, "c2", 1⟩, ⟨⟨some "a", none, none⟩, "c1", 2⟩] ∧
    (List.Sorted scoreLE
        [⟨⟨some "b", none, none⟩, "c2", 1⟩, ⟨⟨some "a", none, none⟩, "c1", 2⟩] ∧
      ∃ pre, combineResults (buildDocScores
          [⟨"c1", some "a", 2⟩, ⟨"c2", some "b", 1⟩])
          [⟨some "a", none, none⟩, ⟨some "b", none, none⟩] = .ok pre ∧
        [⟨⟨some "b", none, none⟩, "c2", 1⟩, ⟨⟨some "a", none, none⟩, "c1", 2⟩] =
          List.insertionSort scoreLE pre ∧
        ∀ s : Int,
          ([⟨⟨some "b", none, none⟩, "c2", 1⟩,
            ⟨⟨some "a", none, none⟩, "c1", 2⟩] : List FusedItem).filter
            (fun i => i.similarity_score == s) =
          pre.filter (fun i => i.similarity_score == s)) :=
  ⟨rfl, c2_sort_invariant _ _ _ rfl⟩

/-- C3: if the LLM invocation raises, `chat` re-raises the wrapped failure
and leaves the conversation history — hence `summary().total_turns` —
unchanged: the append only happens after a successful invocation. -/
theorem c3_no_mutation_on_failure (st : ChatState) (query : String)
    (num_results now : Nat)
    (search_docs : String → Nat → Except String (List Match))
    (fetch_docs : List String → Except String (List Doc))
    (llm_invoke : String → Except String String)
    (vr : List Match) (docs : List Doc) (mr : List FusedItem) (e : String)
    (hs : search_docs query num_results = .ok vr)
    (hf : fetch_docs ((buildDocScores vr).map (fun p => p.1)) = .ok docs)
    (hg : get_matching_documents vr docs = .ok mr)
    (hl : llm_invoke (prompt_template (prepare_context vr mr)
        (formatConversationHistory st.conversation_history st.max_history) query) =
      .error e) :
    chat st query num_results search_docs fetch_docs llm_invoke now =
      (.error ("Failed to process chat: " ++ e), st) ∧
    (get_conversation_summary
      (chat st query num_results search_docs fetch_docs llm_invoke now).2).total_turns =
      (get_conversation_summary st).total_turns := by
  have hchat : chat st query num_results search_docs fetch_docs llm_invoke now =
      (.error ("Failed to process chat: " ++ e), st) := by
    simp only [chat, hs, hf, hg, hl]
  exact ⟨hchat, by rw [hchat]⟩

/-- C3 witness: a concrete failing LLM call leaves a concrete state intact. -/
theorem c3_no_mutation_on_failure_witness :
    (fun (_ : String) (_ : Nat) => (Except.ok [] : Except String (List Match))) "q" 5 =
      (Except.ok [] : Except String (List Match)) ∧
    (fun (_ : List String) => (Except.ok [] : Except String (List Doc)))
      ((buildDocScores []).map (fun p => p.1)) =
      (Except.ok [] : Except String (List Doc)) ∧
    get_matching_documents [] [] = .ok [] ∧
    (fun (_ : String) => Except.error (α := String) "llm down")
      (prompt_template (prepare_context [] [])
        (formatConversationHistory
          (ChatState.mk [] 5).conversation_history (ChatState.mk [] 5).max_history)
        "q") = .error "llm down" ∧
    (chat (ChatState.mk [] 5) "q" 5 (fun _ _ => .ok []) (fun _ => .ok [])
        (fun _ => .error "llm down") 0 =
      (.error ("Failed to process chat: " ++ "llm down"), ChatState.mk [] 5) ∧
    (get_conversation_summary
      (chat (ChatState.mk [] 5) "q" 5 (fun _ _ => .ok []) (fun _ => .ok [])
        (fun _ => .error "llm down") 0).2).total_turns =
      (get_conversation_summary (ChatState.mk [] 5)).total_turns) :=
  ⟨rfl, rfl, rfl, rfl,
    c3_no_mutation_on_failure (ChatState.mk [] 5) "q" 5 0 _ _ _ [] [] [] "llm down"
      rfl rfl rfl rfl⟩

/-- C4 counterexample: rendering one appended turn with window size 0 returns
the whole history (the Python slice `[-0:]` is the full list), not the
`min(k, 0) = 0` turns the claim demands. -/
theorem c4_zero_window_counterexample :
    formatConversationHistory [⟨0, "q1", "r1", 0, 0⟩] 0 ≠
      renderClaim [⟨0, "q1", "r1", 0, 0⟩] 0 := by
  decide

/-- C4 (amended): for every positive window size n, rendering k appended
turns returns exactly the most recent `min k n` turns — a suffix of the
history, in chronological order — each turn as a Human line and an Assistant
line, newline-joined; the window-0 case is excluded because the code then
renders the whole history. -/
theorem c4_history_boundedness (history : List Turn) (n : Nat) (hn : 0 < n) :
    formatConversationHistory history n = renderClaim history n ∧
    (pySliceLast history n).length = min history.length n ∧
    (pySliceLast history n).IsSuffix history := by
  have hne : n ≠ 0 := Nat.pos_iff_ne_zero.mp hn
  have hslice : pySliceLast history n = history.drop (history.length - n) := by
    unfold pySliceLast
    exact if_neg hne
  refine ⟨?_, ?_, ?_⟩
  · unfold formatConversationHistory renderClaim renderWindow
    rw [hslice]
    have harith : history.length - min history.length n = history.length - n := by
      omega
    rw [harith]
  · rw [hslice, List.length_drop]
    omega
  · rw [hslice]
    exact List.drop_suffix _ _

/-- C4 witness: with 2 turns and window 1, exactly the most recent turn is
rendered. -/
theorem c4_history_boundedness_witness :
    0 < 1 ∧
    (formatConversationHistory [⟨1, "qa", "ra", 0, 0⟩, ⟨2, "qb", "rb", 0, 0⟩] 1 =
        renderClaim [⟨1, "qa", "ra", 0, 0⟩, ⟨2, "qb", "rb", 0, 0⟩] 1 ∧
      (pySliceLast ([⟨1, "qa", "ra", 0, 0⟩, ⟨2, "qb", "rb", 0, 0⟩] : List Turn) 1).length =
        min ([⟨1, "qa", "ra", 0, 0⟩, ⟨2, "qb", "rb", 0, 0⟩] : List Turn).length 1 ∧
      (pySliceLast ([⟨1, "qa", "ra", 0, 0⟩, ⟨2, "qb", "rb", 0, 0⟩] : List Turn) 1).IsSuffix
        [⟨1, "qa", "ra", 0, 0⟩, ⟨2, "qb", "rb", 0, 0⟩]) :=
  ⟨Nat.one_pos, c4_history_boundedness _ 1 Nat.one_pos⟩

/-- C5 counterexample: rendering a nonempty history with `max_turns = 0`
returns the full transcript, not the empty string claimed. -/
theorem c5_zero_window_counterexample :
    formatConversationHistory [⟨0, "q2", "r2", 0, 0⟩] 0 ≠ "" := by
  decide

/-- C5 (amended): rendering an empty history returns the empty string for
every window size; rendering with `max_turns = 0`, however, returns the
rendering of the whole history (so it is empty only when the history is). -/
theorem c5_render_edge_cases (history : List Turn) (n : Nat) :
    formatConversationHistory [] n = "" ∧
    formatConversationHistory history 0 = renderWindow history := by
  refine ⟨formatConversationHistory_nil n, ?_⟩
  unfold formatConversationHistory renderWindow pySliceLast
  rw [if_pos rfl]

/-- C6 counterexample: a programmatic `chat` call with the empty query does
not reject it — with the services answering, it runs the full pipeline,
returns the LLM response, and appends a turn. -/
theorem c6_empty_query_counterexample :
    chat (ChatState.mk [] 5) "" 5 (fun _ _ => .ok []) (fun _ => .ok [])
        (fun _ => .ok "resp") 0 =
      (.ok (ChatResult.mk "" "resp" [] []),
        ChatState.mk [Turn.mk 0 "" "resp" 0 0] 5) ∧
    (chat (ChatState.mk [] 5) "" 5 (fun _ _ => .ok []) (fun _ => .ok [])
        (fun _ => .ok "resp") 0).2.conversation_history.length = 1 := by
  exact ⟨rfl, rfl⟩

/-- C6 (amended): the interactive session skips empty or whitespace-only
input without calling `chat` or any service (the step result does not depend
on the service oracles and the state is unchanged); the programmatic `chat`
operation itself performs no emptiness validation. -/
theorem c6_interactive_blank_skip (st : ChatState) (rawInput : String)
    (num_results now : Nat)
    (search_docs : String → Nat → Except String (List Match))
    (fetch_docs : List String → Except String (List Doc))
    (llm_invoke : String → Except String String)
    (h : pyStrip rawInput = "") :
    interactiveStep st rawInput num_results search_docs fetch_docs llm_invoke now =
      (st, StepAction.skipped) := by
  unfold interactiveStep
  rw [h]
  rfl

/-- C6 witness: whitespace-only input is skipped. -/
theorem c6_interactive_blank_skip_witness :
    pyStrip "  \t  " = "" ∧
    interactiveStep (ChatState.mk [] 5) "  \t  " 5 (fun _ _ => .ok [])
        (fun _ => .ok []) (fun _ => .ok "resp") 0 =
      (ChatState.mk [] 5, StepAction.skipped) :=
  ⟨rfl, c6_interactive_blank_skip (ChatState.mk [] 5) "  \t  " 5 0 _ _ _ rfl⟩

/-- C7 counterexample: `_prepare_context` pairs the vector results with the
fused items positionally, so the paragraph shows the vector result's score 1
and snippet c1 against the fused item's document, not the item's own score 5
and snippet c5 — refuting the per-item claim. -/
theorem c7_mixed_pairing_counterexample :
    prepare_context [⟨"c1", some "a", 1⟩]
        [⟨⟨some "a", some "s", some ["k"]⟩, "c5", 5⟩] ≠
      prepareContextClaim [⟨⟨some "a", some "s", some ["k"]⟩, "c5", 5⟩] := by
  decide

/-- C7 (amended): context preparation produces one paragraph per positional
pair of `zip(vector_results, mongo_results)` — hence `min` of the two
lengths, the score and snippet coming from the vector result of the pair —
and a document with missing `summary` and `key_words` fields renders exactly
as one with empty ones, never an error. -/
theorem c7_prompt_assembly (vector_results : List Match)
    (mongo_results : List FusedItem)
    (v_result : Match) (did : Option String) (content : String) (score : Int) :
    prepare_context vector_results mongo_results =
      String.intercalate "\n\n"
        ((vector_results.zip mongo_results).map (fun p => contextParagraph p.1 p.2)) ∧
    ((vector_results.zip mongo_results).map (fun p => contextParagraph p.1 p.2)).length =
      min vector_results.length mongo_results.length ∧
    contextParagraph v_result ⟨⟨did, none, none⟩, content, score⟩ =
      contextParagraph v_result ⟨⟨did, some "", some []⟩, content, score⟩ := by
  refine ⟨rfl, ?_, rfl⟩
  rw [List.length_map, List.length_zip]

/-- C8 counterexample: a fetched record lacking the identifier field makes
`get_matching_documents` raise (the `KeyError` is re-raised wrapped), instead
of being silently discarded with an `ok` result. -/
theorem c8_missing_identifier_counterexample :
    get_matching_documents [⟨"c", some "x", 1⟩] [⟨none, none, none⟩] =
      .error "Failed to retrieve documents: KeyError: document_id" ∧
    get_matching_documents [⟨"c", some "x", 1⟩] [⟨none, none, none⟩] ≠
      .ok [] := by
  have h1 : get_matching_documents [⟨"c", some "x", 1⟩] [⟨none, none, none⟩] =
      .error "Failed to retrieve documents: KeyError: document_id" := rfl
  refine ⟨h1, fun hcontra => ?_⟩
  rw [h1] at hcontra
  exact Except.noConfusion hcontra

/-- C8 (amended): whenever some fetched record lacks the identifier field,
the fusion operation raises (returns the wrapped `KeyError`); such records
are never silently discarded. -/
theorem c8_missing_identifier_raises (ms : List Match) (docs : List Doc)
    (hbad : ∃ d ∈ docs, d.document_id = none) :
    get_matching_documents ms docs =
      .error "Failed to retrieve documents: KeyError: document_id" := by
  have hc := combineResults_error (buildDocScores ms) docs hbad
  simp only [get_matching_documents]
  rw [hc]
  rfl

/-- C8 witness: one identifier-less record among the fetched ones makes the
fusion raise. -/
theorem c8_missing_identifier_raises_witness :
    (∃ d ∈ ([⟨some "a", none, none⟩, ⟨none, none, none⟩] : List Doc),
      d.document_id = none) ∧
    get_matching_documents [⟨"c", some "a", 1⟩]
        [⟨some "a", none, none⟩, ⟨none, none, none⟩] =
      .error "Failed to retrieve documents: KeyError: document_id" :=
  ⟨by decide, c8_missing_identifier_raises _ _ (by decide)⟩

/-- C9: ingestion outcomes — a record lacking the identifier field makes both
ingestion operations return failure (no exception escapes), and ingesting a
record whose identifier is already stored exactly once returns `false` and
leaves the store unchanged, still holding exactly one record under that
identifier. -/
theorem c9_ingestion_outcomes (collection : List Doc)
    (vector_store : List VectorDoc) (d dmissing : Doc) (did : String)
    (hmiss : dmissing.document_id = none)
    (hdid : d.document_id = some did)
    (hone : (collection.filter (fun r => r.document_id == some did)).length = 1) :
    store_document collection dmissing = (false, collection) ∧
    add_document vector_store dmissing = (false, vector_store) ∧
    store_document collection d = (false, collection) ∧
    ((store_document collection d).2.filter
      (fun r => r.document_id == some did)).length = 1 := by
  have hany : collection.any (fun r => r.document_id == some did) = true := by
    have hpos : 0 < (collection.filter (fun r => r.document_id == some did)).length := by
      omega
    obtain ⟨x, hx⟩ := List.exists_mem_of_length_pos hpos
    have hx2 := List.mem_filter.mp hx
    exact List.any_eq_true.mpr ⟨x, hx2.1, hx2.2⟩
  have h3 : store_document collection d = (false, collection) := by
    simp [store_document, hdid, hany]
  refine ⟨?_, ?_, h3, ?_⟩
  · simp [store_document, hmiss]
  · simp [add_document, hmiss]
  · rw [h3]
    exact hone

/-- C9 witness: ingesting the same identifier twice keeps exactly one stored
record; an identifier-less record is declined by both stores. -/
theorem c9_ingestion_outcomes_witness :
    (⟨none, none, none⟩ : Doc).document_id = none ∧
    (⟨some "a", some "s2", none⟩ : Doc).document_id = some "a" ∧
    (([⟨some "a", some "s1", none⟩] : List Doc).filter
      (fun r => r.document_id == some "a")).length = 1 ∧
    (store_document [⟨some "a", some "s1", none⟩] ⟨none, none, none⟩ =
        (false, [⟨some "a", some "s1", none⟩]) ∧
      add_document [] ⟨none, none, none⟩ = (false, []) ∧
      store_document [⟨some "a", some "s1", none⟩] ⟨some "a", some "s2", none⟩ =
        (false, [⟨some "a", some "s1", none⟩]) ∧
      ((store_document [⟨some "a", some "s1", none⟩]
          ⟨some "a", some "s2", none⟩).2.filter
        (fun r => r.document_id == some "a")).length = 1) :=
  ⟨rfl, rfl, by decide,
    c9_ingestion_outcomes [⟨some "a", some "s1", none⟩] [] _ _ "a" rfl rfl (by decide)⟩

/-- C10: after `reset_conversation`, rendering returns the empty string for
every window size, and the summary reports zero turns with absent start and
end timestamps, until a new turn is appended. -/
theorem c10_reset_idempotence (st : ChatState) (n : Nat) :
    formatConversationHistory (reset_conversation st).conversation_history n = "" ∧
    (get_conversation_summary (reset_conversation st)).total_turns = 0 ∧
    (get_conversation_summary (reset_conversation st)).conversation_start = none ∧
    (get_conversation_summary (reset_conversation st)).conversation_end = none :=
  ⟨formatConversationHistory_nil n, rfl, rfl, rfl⟩
